import Mathlib

/-!
Shallow embedding of the WiFi provisioning component
(`src/components/wifi_setup/wifi_setup.c`) of the `00_dev` firmware.

Pure C functions become Lean functions; the module-level mutable globals
become explicit state records threaded through the step functions; side
effects that matter to the specification (result-callback invocations,
radio teardown, delays) are recorded in an explicit effect list.
Machine integers (`uint32_t` timestamps and tokens) are modelled as `Nat`
with explicit reduction modulo `2 ^ 32` where the C code relies on
wrap-around.
-/

/-- `wifi_setup_state_t` from `wifi_setup.h`. -/
inductive WifiSetupState where
  | idle
  | portalRunning
  | connecting
  | connected
  | failed
  | disabled
deriving DecidableEq, Repr

/-- The `esp_err_t` values this component produces or inspects. -/
inductive EspErr where
  | ok
  | fail
  | errInvalidState
  | errNotFound
  | errInvalidArg
  | errNvsNotFound
  | errNvsInvalidLength
deriving DecidableEq, Repr

/-- Observable side effects of the connection-lifecycle code. -/
inductive Effect where
  | callbackInvoked (success : Bool)
  | wifiConnectAttempt
  | radioStopped
  | delayMs (ms : Nat)
deriving DecidableEq, Repr

/-- `uint32_t` subtraction `a - b` as the C code computes it (wrap-around
modulo `2 ^ 32`). -/
def u32sub (a b : Nat) : Nat :=
  (a % 2 ^ 32 + 2 ^ 32 - b % 2 ^ 32) % 2 ^ 32

/-! ## CredentialStore: the NVS namespace `"wifi_setup"`

The component reads and writes exactly two keys, `"ssid"` and
`"password"`, both stored with `nvs_set_str`/`nvs_get_str`.  The store is
modelled as the two optional entries plus a flag saying whether
`nvs_open` succeeds.  `nvs_get_str` into a caller buffer fails with
`ESP_ERR_NVS_INVALID_LENGTH` when the stored string (including its NUL
terminator) does not fit. -/

structure NvsStore where
  canOpen : Bool
  ssidEntry : Option (List Char)
  passwordEntry : Option (List Char)
deriving DecidableEq, Repr

/-- `wifi_setup_has_credentials` (wifi_setup.c:425): open read-only,
query the size of the `"ssid"` entry, report `err == ESP_OK &&
required_size > 1` (the size returned by `nvs_get_str` is
`strlen + 1`). -/
def wifi_setup_has_credentials (s : NvsStore) : Bool :=
  if s.canOpen = false then false
  else
    match s.ssidEntry with
    | none => false
    | some v => decide (v.length + 1 > 1)

/-- `wifi_setup_get_credentials` (wifi_setup.c:439): open read-only,
read `"ssid"` into a 32-byte buffer, then `"password"` into a 64-byte
buffer; the first failing read aborts and its error is returned.  The
NULL-argument check is omitted here: all callers in the component pass a
valid pointer. -/
def wifi_setup_get_credentials (s : NvsStore) :
    Except EspErr (List Char × List Char) :=
  if s.canOpen = false then .error .fail
  else
    match s.ssidEntry with
    | none => .error .errNvsNotFound
    | some ss =>
      if ss.length + 1 > 32 then .error .errNvsInvalidLength
      else
        match s.passwordEntry with
        | none => .error .errNvsNotFound
        | some pw =>
          if pw.length + 1 > 64 then .error .errNvsInvalidLength
          else .ok (ss, pw)

/-- The NVS writes performed by `save_post_handler` (wifi_setup.c:379):
`nvs_set_str` for both keys followed by `nvs_commit`. -/
def nvsSaveCredentials (s : NvsStore) (ss pw : List Char) : NvsStore :=
  { s with ssidEntry := some ss, passwordEntry := some pw }

/-- `wifi_setup_clear_credentials` (wifi_setup.c:612): open read-write,
erase both keys, commit. -/
def wifi_setup_clear_credentials (s : NvsStore) : EspErr × NvsStore :=
  if s.canOpen = false then (.fail, s)
  else (.ok, { s with ssidEntry := none, passwordEntry := none })

/-! ## RateLimiter (save_post_handler, wifi_setup.c:272–285)

Globals `last_save_attempt` (uint32 tick milliseconds) and
`save_attempt_count`.  Note the exact control flow of the C code: on the
denied path the handler returns before `last_save_attempt = now;` is
reached, so a denied attempt bumps the counter but does not move the
recorded timestamp; every non-denied call moves it. -/

def RATE_LIMIT_WINDOW_MS : Nat := 60000

def MAX_SAVE_ATTEMPTS : Nat := 5

structure RateLimit where
  lastSaveAttempt : Nat
  saveAttemptCount : Nat
deriving DecidableEq, Repr

/-- The rate-limiting prologue of `save_post_handler`: returns whether
the request is allowed together with the updated globals. -/
def rateLimitCheck (rl : RateLimit) (now : Nat) : Bool × RateLimit :=
  if u32sub now rl.lastSaveAttempt < RATE_LIMIT_WINDOW_MS then
    let c := rl.saveAttemptCount + 1
    if c > MAX_SAVE_ATTEMPTS then
      (false, { rl with saveAttemptCount := c })
    else
      (true, { lastSaveAttempt := now % 2 ^ 32, saveAttemptCount := c })
  else
    (true, { lastSaveAttempt := now % 2 ^ 32, saveAttemptCount := 1 })

/-- Fixed-window rule exactly as the specification states it (§4.3),
written from the spec's words for comparison with `rateLimitCheck`:
`window_start` is reset only when the window has fully elapsed and is
left unchanged otherwise. -/
def claimFixedWindowCheck (rl : RateLimit) (now : Nat) : Bool × RateLimit :=
  if u32sub now rl.lastSaveAttempt ≥ RATE_LIMIT_WINDOW_MS then
    (true, { lastSaveAttempt := now % 2 ^ 32, saveAttemptCount := 1 })
  else
    let c := rl.saveAttemptCount + 1
    (decide (c ≤ MAX_SAVE_ATTEMPTS), { rl with saveAttemptCount := c })

/-- Run the code's rate limiter over a list of call timestamps. -/
def runRateLimit (rl : RateLimit) : List Nat → List Bool
  | [] => []
  | t :: ts =>
    let r := rateLimitCheck rl t
    r.1 :: runRateLimit r.2 ts

/-- Run the spec's fixed-window rule over a list of call timestamps. -/
def runClaimFixedWindow (rl : RateLimit) : List Nat → List Bool
  | [] => []
  | t :: ts =>
    let r := claimFixedWindowCheck rl t
    r.1 :: runClaimFixedWindow r.2 ts

/-! ## AntiForgeryGuard

`current_csrf_token` (wifi_setup.c:37) is a `uint32_t` global
initialised to `0`.  `setup_get_handler` overwrites it with a fresh
`esp_random()` value (issue); `save_post_handler` compares the submitted
value against it without modifying it (verify). -/

/-- The C initialiser of `current_csrf_token` (wifi_setup.c:37). -/
def initial_csrf_token : Nat := 0

structure CsrfState where
  token : Nat
deriving DecidableEq, Repr

/-- `current_csrf_token = generate_csrf_token()` as performed by
`setup_get_handler` (wifi_setup.c:230); `r` is the `esp_random()`
value.  Any previously recorded token is discarded. -/
def issueToken (_s : CsrfState) (r : Nat) : CsrfState :=
  { token := r % 2 ^ 32 }

/-- The comparison `received_csrf == current_csrf_token` performed by
`save_post_handler` (wifi_setup.c:329).  The state is returned unchanged:
verification does not consume the token. -/
def verifyToken (s : CsrfState) (t : Nat) : Bool × CsrfState :=
  (t % 2 ^ 32 == s.token, s)

/-! ## ProvisioningServer: form-body parsing helpers

`save_post_handler` parses the raw url-encoded body with `strstr`,
`strchr`, `strncpy` and a hand-written `url_decode`; the `csrf` field is
additionally parsed with `strtoul(.., .., 16)`.  The body is modelled as
a `List Char`; a C string is the portion of a buffer up to its first NUL
byte. -/

/-- Truncate at the first NUL byte: the view C string functions take of a
buffer. -/
def cstr (s : List Char) : List Char :=
  s.takeWhile (fun c => c ≠ Char.ofNat 0)

/-- The hex-digit valuation used by `url_decode` (wifi_setup.c:144): a
non-hex character contributes 0. -/
def hexVal (c : Char) : Nat :=
  if '0' ≤ c ∧ c ≤ '9' then c.toNat - '0'.toNat
  else if 'A' ≤ c ∧ c ≤ 'F' then c.toNat - 'A'.toNat + 10
  else if 'a' ≤ c ∧ c ≤ 'f' then c.toNat - 'a'.toNat + 10
  else 0

/-- `url_decode` (wifi_setup.c:136): `+` becomes a space; `%` followed by
two further (non-NUL) characters becomes the byte `(high << 4) | low`;
anything else is copied through. -/
def url_decode : List Char → List Char
  | [] => []
  | '+' :: rest => ' ' :: url_decode rest
  | '%' :: a :: b :: rest =>
    Char.ofNat ((hexVal a <<< 4 ||| hexVal b) % 256) :: url_decode rest
  | c :: rest => c :: url_decode rest

/-- `strstr(hay, needle)` followed by skipping the needle: the suffix of
`hay` after the first occurrence of `needle`, if any. -/
def afterFirst (needle : List Char) : List Char → Option (List Char)
  | [] => if needle = [] then some [] else none
  | c :: rest =>
    if needle.isPrefixOf (c :: rest) then some ((c :: rest).drop needle.length)
    else afterFirst needle rest

/-- The field-value slice `start .. strchr(start, '&')` (or to the end of
the string when no `'&'` follows), as used for `setup_pwd`, `csrf` and
`password`. -/
def takeToAmp : List Char → List Char
  | [] => []
  | c :: rest => if c = '&' then [] else c :: takeToAmp rest

/-- The common extraction pattern of `save_post_handler`: find
`needle` in the body, take the value up to the next `'&'` (or the end),
copy at most `clamp` characters into a zeroed buffer.  Returns the empty
string when the needle is absent, exactly as the zero-initialised C
buffers do. -/
def extractField (body needle : List Char) (clamp : Nat) : List Char :=
  match afterFirst needle body with
  | none => []
  | some suffix => (takeToAmp suffix).take clamp

/-- Whether a character is a hexadecimal digit (for `strtoul` base 16). -/
def isHexDigitChar (c : Char) : Bool :=
  ('0' ≤ c && c ≤ '9') || ('A' ≤ c && c ≤ 'F') || ('a' ≤ c && c ≤ 'f')

/-- Digit-accumulation loop of `strtoul` base 16 on a 32-bit
`unsigned long`: stops at the first non-digit and clamps to
`ULONG_MAX` on overflow. -/
def strtoul16Digits : List Char → Nat → Nat
  | [], acc => acc
  | c :: rest, acc =>
    if isHexDigitChar c then
      strtoul16Digits rest (min (acc * 16 + hexVal c) (2 ^ 32 - 1))
    else acc

/-- `strtoul(s, NULL, 16)` on a platform with 32-bit `unsigned long`:
skip leading whitespace, honour an optional sign (a negative result is
reduced modulo `2 ^ 32`), skip an optional `0x`/`0X` prefix, then
accumulate hex digits; no digits yields 0. -/
def strtoul16 (s : List Char) : Nat :=
  let s1 := s.dropWhile (fun c =>
    c = ' ' ∨ c = '\t' ∨ c = '\n' ∨ c = Char.ofNat 11 ∨ c = Char.ofNat 12 ∨ c = '\r')
  let signed : Bool × List Char :=
    match s1 with
    | '-' :: rest => (true, rest)
    | '+' :: rest => (false, rest)
    | _ => (false, s1)
  let s2 :=
    match signed.2 with
    | '0' :: 'x' :: rest => rest
    | '0' :: 'X' :: rest => rest
    | l => l
  let mag := strtoul16Digits s2 0
  if signed.1 then (2 ^ 32 - mag % 2 ^ 32) % 2 ^ 32 else mag

/-! ## `save_post_handler` (wifi_setup.c:270)

The handler reads the tick clock, runs the rate limiter, receives at most
511 bytes of body, and walks the checks in source order: setup password,
anti-forgery token, presence of `ssid=`/`password=`, non-empty SSID,
NVS open, NVS write, success page, allocation of the background-connect
task argument.  It mutates only the rate-limit globals and (on the
success path) the credential store; the connection state is only touched
by the spawned `wifi_connect_task`, which is reported here as the
`spawned` component of the result. -/

/-- HTTP responses the handler can produce. -/
inductive HttpResponse where
  | okPage
  | err400 (msg : List Char)
  | err403 (msg : List Char)
  | err500 (msg : List Char)
deriving DecidableEq, Repr

/-- The globals read and written by `save_post_handler`, plus the
connection state (which it never writes directly) and a flag for the
`malloc` at the end. -/
structure SaveCtx where
  rl : RateLimit
  csrfToken : Nat
  setupPassword : List Char
  nvs : NvsStore
  connState : WifiSetupState
  mallocOk : Bool
deriving DecidableEq, Repr

/-- Result of one `save_post_handler` invocation: the response, the
updated globals, and the credentials handed to the spawned
`wifi_connect_task` (`none` when no task is spawned). -/
structure SaveResult where
  resp : HttpResponse
  ctx : SaveCtx
  spawned : Option (List Char × List Char)
deriving DecidableEq, Repr

/-- `save_post_handler` (wifi_setup.c:270–401).  `now` is
`xTaskGetTickCount() * portTICK_PERIOD_MS`; `body` is the raw request
body (`httpd_req_recv` delivers at most 511 bytes and the handler
rejects an empty read). -/
def save_post_handler (c : SaveCtx) (now : Nat) (body : List Char) :
    SaveResult :=
  let rlr := rateLimitCheck c.rl now
  let c := { c with rl := rlr.2 }
  if rlr.1 = false then
    ⟨.err500 "Too many attempts".data, c, none⟩
  else
    let recvd := body.take 511
    if recvd.length = 0 then ⟨.err400 "Invalid data".data, c, none⟩
    else
      let buf := cstr recvd
      let setup_pwd := cstr (url_decode (extractField buf "setup_pwd=".data 15))
      if setup_pwd ≠ c.setupPassword then
        ⟨.err403 "Invalid password".data, c, none⟩
      else
        let csrf_str := extractField buf "csrf=".data 15
        let received_csrf := strtoul16 csrf_str
        if received_csrf ≠ c.csrfToken then
          ⟨.err403 "Invalid request".data, c, none⟩
        else
          match afterFirst "ssid=".data buf, afterFirst "password=".data buf with
          | none, _ => ⟨.err400 "Missing data".data, c, none⟩
          | some _, none => ⟨.err400 "Missing data".data, c, none⟩
          | some ssidSuffix, some pwSuffix =>
            let ssid :=
              if ssidSuffix.contains '&' then
                cstr (url_decode ((takeToAmp ssidSuffix).take 31))
              else []
            let password := cstr (url_decode ((takeToAmp pwSuffix).take 63))
            if ssid.length = 0 then
              ⟨.err400 "SSID required".data, c, none⟩
            else if c.nvs.canOpen = false then
              ⟨.err500 "Save failed".data, c, none⟩
            else
              let c := { c with nvs := nvsSaveCredentials c.nvs ssid password }
              if c.mallocOk then ⟨.okPage, c, some (ssid, password)⟩
              else ⟨.err500 "Memory error".data, c, none⟩

/-! ## ConnectionManager: shared state and lifecycle operations

The module-level globals of wifi_setup.c that the lifecycle code reads
and writes: `current_state`, `wifi_retry_num`, `stay_connected_flag`,
`setup_callback` (modelled as presence), `timeout_task_handle` (modelled
as the armed delay, if any), the `server`/`ap_netif`/`sta_netif` handles
(modelled as liveness flags) and the two event-group bits.  Each
operation returns the new globals plus the list of observable effects it
performed, in order. -/

def PORTAL_TIMEOUT_MS : Nat := 5 * 60 * 1000

def CONNECT_TIMEOUT_MS : Nat := 30 * 1000

structure ConnState where
  state : WifiSetupState
  retryNum : Nat
  stayConnected : Bool
  hasCallback : Bool
  timeoutArmed : Option Nat
  server : Bool
  apNetif : Bool
  staNetif : Bool
  failBit : Bool
  connectedBit : Bool
deriving DecidableEq, Repr

/-- `stop_timeout_task` (wifi_setup.c:125): delete the pending timeout
task if any. -/
def stop_timeout_task (s : ConnState) : ConnState :=
  { s with timeoutArmed := none }

/-- `start_timeout_task` (wifi_setup.c:114): delete any pending timeout
task, then create a fresh one armed for `ms` milliseconds. -/
def start_timeout_task (s : ConnState) (ms : Nat) : ConnState :=
  { s with timeoutArmed := some ms }

/-- `cleanup_wifi_resources` (wifi_setup.c:161): stop the timeout task;
unless already `Disabled`, stop and deinitialise the radio, destroy the
station interface, unregister the event handlers and set the state to
`Disabled`. -/
def cleanup_wifi_resources (s : ConnState) : ConnState × List Effect :=
  let s := stop_timeout_task s
  if s.state ≠ WifiSetupState.disabled then
    ({ s with staNetif := false, state := .disabled }, [.radioStopped])
  else (s, [])

/-- `wifi_setup_stop_portal` (wifi_setup.c:523): stop the timeout task,
stop the HTTP server, stop and deinitialise the radio, destroy the
access-point interface, and set the state to `Idle`. -/
def wifi_setup_stop_portal (s : ConnState) : ConnState × List Effect :=
  let s := stop_timeout_task s
  let s := { s with server := false }
  ({ s with apNetif := false, state := .idle }, [.radioStopped])

/-- `wifi_setup_disconnect` (wifi_setup.c:602): clean up the radio
resources, then invoke the result callback with `false` if one is
registered. -/
def wifi_setup_disconnect (s : ConnState) : ConnState × List Effect :=
  let r := cleanup_wifi_resources s
  (r.1, r.2 ++ if r.1.hasCallback then [.callbackInvoked false] else [])

/-- The body of `timeout_task` after its delay elapses
(wifi_setup.c:94–110): in `Connected` without `stay_connected`,
disconnect and then notify the callback of the timeout; in
`PortalRunning`, stop the portal, set `Disabled` and notify the
callback; otherwise do nothing.  Finally the task clears its own
handle. -/
def timeout_task_fire (s : ConnState) : ConnState × List Effect :=
  let r :=
    if s.state = WifiSetupState.connected ∧ s.stayConnected = false then
      let d := wifi_setup_disconnect s
      (d.1, d.2 ++ if d.1.hasCallback then [.callbackInvoked false] else [])
    else if s.state = WifiSetupState.portalRunning then
      let p := wifi_setup_stop_portal s
      ({ p.1 with state := .disabled },
       p.2 ++ if p.1.hasCallback then [.callbackInvoked false] else [])
    else (s, [])
  ({ r.1 with timeoutArmed := none }, r.2)

/-- The `WIFI_EVENT_STA_DISCONNECTED` arm of `wifi_event_handler`
(wifi_setup.c:195–208): with retries remaining and state `Connecting`,
re-attempt association and bump the retry counter; otherwise set the
fail bit, move to `Failed`, wait one second and release the radio
resources. -/
def wifi_event_handler_staDisconnected (s : ConnState) :
    ConnState × List Effect :=
  if s.retryNum < 3 ∧ s.state = WifiSetupState.connecting then
    ({ s with retryNum := s.retryNum + 1 }, [.wifiConnectAttempt])
  else
    let sFailed := { s with failBit := true, state := WifiSetupState.failed }
    let r := cleanup_wifi_resources sFailed
    (r.1, .delayMs 1000 :: r.2)

/-- The `IP_EVENT_STA_GOT_IP` arm of `wifi_event_handler`
(wifi_setup.c:209–224): reset the retry counter, move to `Connected`,
set the connected bit, arm the 30-second grace timeout unless
`stay_connected`, and invoke the callback with success. -/
def wifi_event_handler_gotIp (s : ConnState) : ConnState × List Effect :=
  let s := { s with retryNum := 0, state := WifiSetupState.connected,
                    connectedBit := true }
  let s := if s.stayConnected = false then start_timeout_task s CONNECT_TIMEOUT_MS
           else s
  (s, if s.hasCallback then [.callbackInvoked true] else [])

/-- Feed `n` consecutive `WIFI_EVENT_STA_DISCONNECTED` events to the
handler, collecting all effects in order. -/
def runDisconnects : ConnState → Nat → ConnState × List Effect
  | s, 0 => (s, [])
  | s, n + 1 =>
    let r := wifi_event_handler_staDisconnected s
    let rest := runDisconnects r.1 n
    (rest.1, r.2 ++ rest.2)

/-- `wifi_setup_start_portal` (wifi_setup.c:459): record the callback,
enter `PortalRunning`, clear `stay_connected`, create the access point,
arm the 5-minute portal timeout, then start the HTTP server (`httpdOk`
says whether `httpd_start` succeeds; on failure `ESP_FAIL` is
returned). -/
def wifi_setup_start_portal (s : ConnState) (hasCb httpdOk : Bool) :
    EspErr × ConnState :=
  let s := { s with hasCallback := hasCb,
                    state := WifiSetupState.portalRunning,
                    stayConnected := false, apNetif := true }
  let s := start_timeout_task s PORTAL_TIMEOUT_MS
  if httpdOk then (.ok, { s with server := true }) else (.fail, s)

/-- `wifi_setup_connect` (wifi_setup.c:544): reject with
`ESP_ERR_INVALID_STATE` when already `Connected`; reject with
`ESP_ERR_NOT_FOUND` when no credentials are stored; propagate a
credential-load failure; otherwise record the callback and the
`stay_connected` flag, enter `Connecting` with the retry counter reset
to 0, create the station interface and start the radio. -/
def wifi_setup_connect (s : ConnState) (nvs : NvsStore)
    (hasCb stay : Bool) : EspErr × ConnState :=
  if s.state = WifiSetupState.connected then (.errInvalidState, s)
  else if wifi_setup_has_credentials nvs = false then (.errNotFound, s)
  else
    match wifi_setup_get_credentials nvs with
    | .error e => (e, s)
    | .ok _ =>
      (.ok, { s with hasCallback := hasCb, stayConnected := stay,
                     state := WifiSetupState.connecting, retryNum := 0,
                     staNetif := true })

/-! ## Fixtures used by the claim theorems -/

/-- A run that has just entered `Connecting` with a registered callback
(the state `wifi_setup_connect` leaves behind). -/
def connectingFresh : ConnState :=
  { state := .connecting, retryNum := 0, stayConnected := false,
    hasCallback := true, timeoutArmed := none, server := false,
    apNetif := false, staNetif := true, failBit := false,
    connectedBit := false }

/-- A run in `Connected` with the 30-second grace timeout armed and a
registered callback. -/
def connectedGrace : ConnState :=
  { state := .connected, retryNum := 0, stayConnected := false,
    hasCallback := true, timeoutArmed := some CONNECT_TIMEOUT_MS,
    server := false, apNetif := false, staNetif := true,
    failBit := false, connectedBit := true }

/-- Six submission timestamps, 30 seconds apart. -/
def sixCallsSpaced30s : List Nat :=
  [100000, 130000, 160000, 190000, 220000, 250000]

/-- **C1.** (code bug) In `Connecting` with the retry counter exhausted,
the link-down arm of `wifi_event_handler` transitions through `Failed`
and releases the radio after the 1-second grace delay, but it never
invokes the result callback: four consecutive link-down events from a
fresh `Connecting` state produce three reconnect attempts, the delay and
the teardown, and zero callback invocations — the claim (and the header
comment of `wifi_setup_connect`) requires exactly one failure
invocation. -/
theorem c1_retry_exhaustion_drops_callback :
    (runDisconnects connectingFresh 4).2.count (Effect.callbackInvoked false) = 0 ∧
    (runDisconnects connectingFresh 4).2.count (Effect.callbackInvoked true) = 0 ∧
    (runDisconnects connectingFresh 4).1.state = WifiSetupState.disabled ∧
    (runDisconnects connectingFresh 4).2 =
      [.wifiConnectAttempt, .wifiConnectAttempt, .wifiConnectAttempt,
       .delayMs 1000, .radioStopped] := by decide

/-- **C4.** (code bug) A single firing of the connected-grace timeout in
`Connected` (without `stay_connected`) invokes the failure callback
twice — once inside `wifi_setup_disconnect` and once more in
`timeout_task` itself — while a single explicit
`wifi_setup_disconnect` invokes it exactly once.  The claim requires at
most one failure invocation per logical outcome. -/
theorem c4_connected_grace_timeout_double_callback :
    (timeout_task_fire connectedGrace).2.count (Effect.callbackInvoked false) = 2 ∧
    (wifi_setup_disconnect connectedGrace).2.count (Effect.callbackInvoked false) = 1 := by
  decide

/-- **C3 counterexample.** The code's rate limiter is not the fixed-window
counter the claim describes: on six submissions spaced 30 seconds apart
(first one a fresh window), the code denies the sixth — because every
allowed call moves `last_save_attempt` to `now` — whereas the claim's
fixed-window rule, which resets `window_start` only when a full window
has elapsed, allows all six. -/
theorem c3_window_slides_counterexample :
    runRateLimit ⟨0, 0⟩ sixCallsSpaced30s =
      [true, true, true, true, true, false] ∧
    runClaimFixedWindow ⟨0, 0⟩ sixCallsSpaced30s =
      [true, true, true, true, true, true] := by decide

/-- **C5 counterexample.** `issue()` draws its token from `esp_random()`;
nothing prevents a subsequent `issue()` from returning the same 32-bit
value.  When the second issue returns the same token (here 5), the first
token still verifies as `true`, contradicting the claim that a
subsequent `issue()` returning `t'` always makes `verify(t)` false. -/
theorem c5_reissued_equal_token_stays_valid :
    (verifyToken (issueToken (issueToken ⟨initial_csrf_token⟩ 5) 5) 5).1 = true := by
  decide

/-- The state of the portal before any GET of the setup form has been
handled: `current_csrf_token` still holds its C initialiser, the rate
limiter is in its initial state, the store opens and is empty, and the
background-task allocation succeeds. -/
def preIssueCtx : SaveCtx :=
  { rl := { lastSaveAttempt := 0, saveAttemptCount := 0 },
    csrfToken := initial_csrf_token,
    setupPassword := "abc123".data,
    nvs := { canOpen := true, ssidEntry := none, passwordEntry := none },
    connState := .portalRunning,
    mallocOk := true }

/-- A POST body with the correct setup password and credentials but no
`csrf` field at all. -/
def noCsrfBody : List Char := "setup_pwd=abc123&ssid=Home&password=pw1".data

/-- **C10.** Before any GET of the setup form, `current_csrf_token` is
its initialiser 0; an absent `csrf` field leaves the zeroed 16-byte
buffer empty and `strtoul` maps the empty string (or any string with no
leading hex digits) to 0, so the comparison `received_csrf ==
current_csrf_token` succeeds without any token ever having been issued,
and with the correct setup password the request persists credentials and
spawns the background connect task. -/
theorem c10_missing_csrf_bypasses_guard :
    initial_csrf_token = 0 ∧
    strtoul16 [] = 0 ∧
    strtoul16 "zzzz".data = 0 ∧
    extractField (cstr (noCsrfBody.take 511)) "csrf=".data 15 = [] ∧
    save_post_handler preIssueCtx 100000 noCsrfBody =
      ⟨.okPage,
       { preIssueCtx with
           rl := { lastSaveAttempt := 100000, saveAttemptCount := 1 },
           nvs := { canOpen := true, ssidEntry := some "Home".data,
                    passwordEntry := some "pw1".data } },
       some ("Home".data, "pw1".data)⟩ := by decide

/-- A portal session as `wifi_setup_start_portal` leaves it. -/
def portalLive : ConnState :=
  { state := .portalRunning, retryNum := 0, stayConnected := false,
    hasCallback := true, timeoutArmed := some PORTAL_TIMEOUT_MS,
    server := true, apNetif := true, staNetif := false,
    failBit := false, connectedBit := false }

/-- **C2.** When the timeout fires while the state is `PortalRunning`,
the task stops the portal (HTTP server and access point), sets the state
to `Disabled`, and invokes the result callback exactly once with a
failure outcome; and every `wifi_setup_start_portal` arms the portal
timeout for `PORTAL_TIMEOUT_MS` = 5 minutes. -/
theorem c2_portal_timeout_disables (s : ConnState)
    (h1 : s.state = WifiSetupState.portalRunning)
    (h2 : s.hasCallback = true) :
    ((timeout_task_fire s).1.state = WifiSetupState.disabled ∧
     (timeout_task_fire s).1.server = false ∧
     (timeout_task_fire s).1.apNetif = false ∧
     (timeout_task_fire s).2 =
       [Effect.radioStopped, Effect.callbackInvoked false]) ∧
    (∀ t cb ok,
      ((wifi_setup_start_portal t cb ok).2).timeoutArmed =
        some PORTAL_TIMEOUT_MS) ∧
    PORTAL_TIMEOUT_MS = 5 * 60 * 1000 := by
  refine ⟨?_, ?_, rfl⟩
  · simp [timeout_task_fire, wifi_setup_stop_portal, wifi_setup_disconnect,
          cleanup_wifi_resources, stop_timeout_task, h1, h2]
  · intro t cb ok
    cases ok <;> simp [wifi_setup_start_portal, start_timeout_task]

/-- Witness for C2 at a concrete live portal state. -/
theorem c2_portal_timeout_disables_witness :
    portalLive.state = WifiSetupState.portalRunning ∧
    portalLive.hasCallback = true ∧
    (timeout_task_fire portalLive).1.state = WifiSetupState.disabled ∧
    (timeout_task_fire portalLive).2 =
      [Effect.radioStopped, Effect.callbackInvoked false] :=
  ⟨rfl, rfl, (c2_portal_timeout_disables portalLive rfl rfl).1.1,
    (c2_portal_timeout_disables portalLive rfl rfl).1.2.2.2⟩

/-- `wifi_setup_get_credentials` never fails with `ESP_OK` as its error
code. -/
theorem wifi_setup_get_credentials_ne_error_ok (nvs : NvsStore) :
    wifi_setup_get_credentials nvs ≠ Except.error EspErr.ok := by
  unfold wifi_setup_get_credentials
  repeat' split
  all_goals simp

/-- **C6.** `wifi_setup_connect` fails with the state-conflict error
`ESP_ERR_INVALID_STATE` when the state is `Connected`; fails with
`ESP_ERR_NOT_FOUND` when (not connected and) no credentials are stored;
and whenever it returns `ESP_OK` the new state is `Connecting` with the
retry counter reset to 0. -/
theorem c6_connect_error_and_success (s : ConnState) (nvs : NvsStore)
    (cb stay : Bool) :
    (s.state = WifiSetupState.connected →
      wifi_setup_connect s nvs cb stay = (.errInvalidState, s)) ∧
    (s.state ≠ WifiSetupState.connected →
      wifi_setup_has_credentials nvs = false →
      wifi_setup_connect s nvs cb stay = (.errNotFound, s)) ∧
    (∀ t, wifi_setup_connect s nvs cb stay = (EspErr.ok, t) →
      t.state = WifiSetupState.connecting ∧ t.retryNum = 0) := by
  refine ⟨?_, ?_, ?_⟩
  · intro h
    simp [wifi_setup_connect, h]
  · intro h1 h2
    simp [wifi_setup_connect, h1, h2]
  · intro t hrun
    unfold wifi_setup_connect at hrun
    split at hrun
    · simp at hrun
    · split at hrun
      · simp at hrun
      · split at hrun
        · next e heq =>
            rw [Prod.mk.injEq] at hrun
            exact absurd (hrun.1 ▸ heq) (wifi_setup_get_credentials_ne_error_ok nvs)
        · rw [Prod.mk.injEq] at hrun
          rw [← hrun.2]
          exact ⟨rfl, rfl⟩

/-- Witness for C6: all three arms at concrete states and stores. -/
theorem c6_connect_error_and_success_witness :
    wifi_setup_connect connectedGrace
        ⟨true, some "Home".data, some "pw1".data⟩ true false =
      (EspErr.errInvalidState, connectedGrace) ∧
    wifi_setup_connect connectingFresh ⟨true, none, none⟩ true false =
      (EspErr.errNotFound, connectingFresh) ∧
    ((wifi_setup_connect connectingFresh
        ⟨true, some "Home".data, some "pw1".data⟩ true false).2.state =
      WifiSetupState.connecting ∧
     (wifi_setup_connect connectingFresh
        ⟨true, some "Home".data, some "pw1".data⟩ true false).2.retryNum = 0) :=
  ⟨(c6_connect_error_and_success connectedGrace
      ⟨true, some "Home".data, some "pw1".data⟩ true false).1 rfl,
   (c6_connect_error_and_success connectingFresh
      ⟨true, none, none⟩ true false).2.1 (by decide) (by decide),
   (c6_connect_error_and_success connectingFresh
      ⟨true, some "Home".data, some "pw1".data⟩ true false).2.2 _ (by decide)⟩

/-- **C8.** `wifi_setup_has_credentials` is total and collapses every
failure to `false`: it returns `true` exactly when the store opens and a
non-empty `"ssid"` entry exists (so it is `false` when the store cannot
be opened, when the entry is absent, and when the stored name is the
zero-length string). -/
theorem c8_has_credentials_iff (s : NvsStore) :
    wifi_setup_has_credentials s = true ↔
      s.canOpen = true ∧ ∃ v, s.ssidEntry = some v ∧ v ≠ [] := by
  rcases s with ⟨co, se, pe⟩
  cases co <;> cases se <;>
    simp [wifi_setup_has_credentials, List.length_pos]

/-- **C5 (amended).** After `issue()` records token `t`:
`verify(t)` is true and does not consume the token (a second `verify(t)`
is still true); `verify(u)` is false for every token `u ≠ t`; and a
subsequent `issue()` recording a token `t'` *different from `t`* makes
`verify(t)` false while `verify(t')` is true.  (The unamended claim,
which does not require `t' ≠ t`, fails when `esp_random()` repeats a
value: see the counterexample.) -/
theorem c5_token_lifecycle (s : CsrfState) (t u tp : Nat)
    (ht : t < 2 ^ 32) (hu : u < 2 ^ 32) (htp : tp < 2 ^ 32) :
    (verifyToken (issueToken s t) t).1 = true ∧
    (verifyToken (verifyToken (issueToken s t) t).2 t).1 = true ∧
    (u ≠ t → (verifyToken (issueToken s t) u).1 = false) ∧
    (verifyToken (issueToken (issueToken s t) tp) tp).1 = true ∧
    (tp ≠ t → (verifyToken (issueToken (issueToken s t) tp) t).1 = false) := by
  simp only [verifyToken, issueToken, Nat.mod_eq_of_lt ht,
    Nat.mod_eq_of_lt hu, Nat.mod_eq_of_lt htp]
  refine ⟨by simp, by simp, fun h => ?_, by simp, fun h => ?_⟩
  · simpa using h
  · simpa using fun hteq => h hteq.symm

/-- Witness for C5 at concrete tokens 7, 9 and 11. -/
theorem c5_token_lifecycle_witness :
    (verifyToken (issueToken ⟨0⟩ 7) 7).1 = true ∧
    (verifyToken (issueToken ⟨0⟩ 7) 9).1 = false ∧
    (verifyToken (issueToken (issueToken ⟨0⟩ 7) 11) 11).1 = true ∧
    (verifyToken (issueToken (issueToken ⟨0⟩ 7) 11) 7).1 = false :=
  have h := c5_token_lifecycle ⟨0⟩ 7 9 11 (by decide) (by decide) (by decide)
  ⟨h.1, h.2.2.1 (by decide), h.2.2.2.1, h.2.2.2.2 (by decide)⟩

/-- Reducing the subtrahend of a wrap-around subtraction modulo `2 ^ 32`
does not change the result. -/
theorem u32sub_mod_right (a b : Nat) : u32sub a (b % 2 ^ 32) = u32sub a b := by
  simp [u32sub, Nat.mod_mod_of_dvd]

/-- **C3 (amended).** The submission rate limiter measures its 60 000 ms
window from the most recent recorded attempt, not from a fixed window
start: every allowed call moves `last_save_attempt` to `now` (a denied
call leaves it in place).  Consequently: (1) six submissions whose
consecutive gaps are each under 60 s, the first opening a fresh window,
yield five allowed and then one denied; (2) a call at least 60 s after
the last recorded attempt is allowed with the counter reset to 1; (3) a
call within 60 s of the last recorded attempt increments the counter and
is denied exactly when the count exceeds 5. -/
theorem c3_rate_limiter_behavior :
    (∀ rl t1 t2 t3 t4 t5 t6,
      u32sub t1 rl.lastSaveAttempt ≥ RATE_LIMIT_WINDOW_MS →
      u32sub t2 t1 < RATE_LIMIT_WINDOW_MS →
      u32sub t3 t2 < RATE_LIMIT_WINDOW_MS →
      u32sub t4 t3 < RATE_LIMIT_WINDOW_MS →
      u32sub t5 t4 < RATE_LIMIT_WINDOW_MS →
      u32sub t6 t5 < RATE_LIMIT_WINDOW_MS →
      runRateLimit rl [t1, t2, t3, t4, t5, t6] =
        [true, true, true, true, true, false]) ∧
    (∀ rl now, u32sub now rl.lastSaveAttempt ≥ RATE_LIMIT_WINDOW_MS →
      rateLimitCheck rl now = (true, ⟨now % 2 ^ 32, 1⟩)) ∧
    (∀ rl now, u32sub now rl.lastSaveAttempt < RATE_LIMIT_WINDOW_MS →
      rateLimitCheck rl now =
        if rl.saveAttemptCount + 1 > MAX_SAVE_ATTEMPTS then
          (false, ⟨rl.lastSaveAttempt, rl.saveAttemptCount + 1⟩)
        else (true, ⟨now % 2 ^ 32, rl.saveAttemptCount + 1⟩)) := by
  have hreset : ∀ rl now, u32sub now rl.lastSaveAttempt ≥ RATE_LIMIT_WINDOW_MS →
      rateLimitCheck rl now = (true, ⟨now % 2 ^ 32, 1⟩) := by
    intro rl now h
    unfold rateLimitCheck
    rw [if_neg (Nat.not_lt.mpr h)]
  have hstep : ∀ rl now, u32sub now rl.lastSaveAttempt < RATE_LIMIT_WINDOW_MS →
      rateLimitCheck rl now =
        if rl.saveAttemptCount + 1 > MAX_SAVE_ATTEMPTS then
          (false, ⟨rl.lastSaveAttempt, rl.saveAttemptCount + 1⟩)
        else (true, ⟨now % 2 ^ 32, rl.saveAttemptCount + 1⟩) := by
    intro rl now h
    unfold rateLimitCheck
    rw [if_pos h]
  refine ⟨?_, hreset, hstep⟩
  intro rl t1 t2 t3 t4 t5 t6 h1 h2 h3 h4 h5 h6
  have e1 : rateLimitCheck rl t1 = (true, ⟨t1 % 2 ^ 32, 1⟩) := hreset rl t1 h1
  have e2 : rateLimitCheck ⟨t1 % 2 ^ 32, 1⟩ t2 = (true, ⟨t2 % 2 ^ 32, 2⟩) := by
    rw [hstep ⟨t1 % 2 ^ 32, 1⟩ t2 (by rwa [u32sub_mod_right])]
    norm_num [MAX_SAVE_ATTEMPTS]
  have e3 : rateLimitCheck ⟨t2 % 2 ^ 32, 2⟩ t3 = (true, ⟨t3 % 2 ^ 32, 3⟩) := by
    rw [hstep ⟨t2 % 2 ^ 32, 2⟩ t3 (by rwa [u32sub_mod_right])]
    norm_num [MAX_SAVE_ATTEMPTS]
  have e4 : rateLimitCheck ⟨t3 % 2 ^ 32, 3⟩ t4 = (true, ⟨t4 % 2 ^ 32, 4⟩) := by
    rw [hstep ⟨t3 % 2 ^ 32, 3⟩ t4 (by rwa [u32sub_mod_right])]
    norm_num [MAX_SAVE_ATTEMPTS]
  have e5 : rateLimitCheck ⟨t4 % 2 ^ 32, 4⟩ t5 = (true, ⟨t5 % 2 ^ 32, 5⟩) := by
    rw [hstep ⟨t4 % 2 ^ 32, 4⟩ t5 (by rwa [u32sub_mod_right])]
    norm_num [MAX_SAVE_ATTEMPTS]
  have e6 : rateLimitCheck ⟨t5 % 2 ^ 32, 5⟩ t6 = (false, ⟨t5 % 2 ^ 32, 6⟩) := by
    rw [hstep ⟨t5 % 2 ^ 32, 5⟩ t6 (by rwa [u32sub_mod_right])]
    norm_num [MAX_SAVE_ATTEMPTS]
  simp only [runRateLimit, e1, e2, e3, e4, e5, e6]

/-- Witness for C3 (amended) on six calls 10 seconds apart after a fresh
window, plus the reset and in-window rules at concrete inputs. -/
theorem c3_rate_limiter_behavior_witness :
    runRateLimit ⟨0, 0⟩ [100000, 110000, 120000, 130000, 140000, 150000] =
      [true, true, true, true, true, false] ∧
    rateLimitCheck ⟨0, 0⟩ 100000 = (true, ⟨100000, 1⟩) ∧
    rateLimitCheck ⟨100000, 5⟩ 110000 = (false, ⟨100000, 6⟩) :=
  ⟨c3_rate_limiter_behavior.1 ⟨0, 0⟩ 100000 110000 120000 130000 140000 150000
      (by decide) (by decide) (by decide) (by decide) (by decide) (by decide),
   by
    have h := c3_rate_limiter_behavior.2.1 ⟨0, 0⟩ 100000 (by decide)
    simpa using h,
   by
    have h := c3_rate_limiter_behavior.2.2 ⟨100000, 5⟩ 110000 (by decide)
    simpa using h⟩

/-- A POST body carrying the correct setup password but a `csrf` value
(`ff`) different from the current token. -/
def mismatchCsrfBody : List Char :=
  "setup_pwd=abc123&ssid=Home&password=pw1&csrf=ff".data

/-- **C7.** Any POST to `/save` that the rate limiter lets through and
that carries a non-empty body whose `csrf` field does not decode to the
current anti-forgery token is answered with 403; no credentials are
written, the connection state and the token are untouched, no
background-connect task is spawned — the only mutation is the
rate-limit window update performed by the prologue. -/
theorem c7_csrf_mismatch_rejected (c : SaveCtx) (now : Nat) (body : List Char)
    (hrate : (rateLimitCheck c.rl now).1 = true)
    (hrecv : (body.take 511).length ≠ 0)
    (hcsrf : strtoul16 (extractField (cstr (body.take 511)) "csrf=".data 15) ≠
      c.csrfToken) :
    (save_post_handler c now body).ctx.nvs = c.nvs ∧
    (save_post_handler c now body).ctx.connState = c.connState ∧
    (save_post_handler c now body).ctx.csrfToken = c.csrfToken ∧
    (save_post_handler c now body).spawned = none ∧
    ∃ m, save_post_handler c now body =
      ⟨HttpResponse.err403 m, { c with rl := (rateLimitCheck c.rl now).2 },
       none⟩ := by
  have hbody : body ≠ [] := by
    intro h
    exact hrecv (by simp [h])
  have key : ∃ m, save_post_handler c now body =
      ⟨HttpResponse.err403 m, { c with rl := (rateLimitCheck c.rl now).2 },
       none⟩ := by
    by_cases hpwd :
        cstr (url_decode (extractField (cstr (body.take 511))
          "setup_pwd=".data 15)) = c.setupPassword
    · exact ⟨"Invalid request".data,
        by simp [save_post_handler, hrate, hrecv, hbody, hpwd, hcsrf]⟩
    · exact ⟨"Invalid password".data,
        by simp [save_post_handler, hrate, hrecv, hbody, hpwd]⟩
  obtain ⟨m, hm⟩ := key
  rw [hm]
  exact ⟨rfl, rfl, rfl, rfl, m, rfl⟩

/-- Witness for C7: a concrete mismatching submission against the
pre-issue context. -/
theorem c7_csrf_mismatch_rejected_witness :
    (rateLimitCheck preIssueCtx.rl 100000).1 = true ∧
    (mismatchCsrfBody.take 511).length ≠ 0 ∧
    strtoul16 (extractField (cstr (mismatchCsrfBody.take 511))
      "csrf=".data 15) ≠ preIssueCtx.csrfToken ∧
    ((save_post_handler preIssueCtx 100000 mismatchCsrfBody).ctx.nvs =
       preIssueCtx.nvs ∧
     (save_post_handler preIssueCtx 100000 mismatchCsrfBody).spawned = none) :=
  have h := c7_csrf_mismatch_rejected preIssueCtx 100000 mismatchCsrfBody
    (by decide) (by decide) (by decide)
  ⟨by decide, by decide, by decide, h.1, h.2.2.2.1⟩

/-- `url_decode` never lengthens its input: `+` and plain characters map
one-to-one and a `%XX` escape shrinks three characters to one. -/
theorem url_decode_length_le (l : List Char) :
    (url_decode l).length ≤ l.length := by
  induction l using url_decode.induct <;> simp [url_decode] <;> omega

/-- A field clamped to `n` characters and then percent-decoded and
NUL-truncated is at most `n` characters long. -/
theorem clamped_field_length_le (l : List Char) (n : Nat) :
    (cstr (url_decode (l.take n))).length ≤ n :=
  le_trans (List.takeWhile_sublist _).length_le
    (le_trans (url_decode_length_le _) (List.length_take_le _ _))

/-- Store-level round trip: writing both entries of an openable store
makes `load` return them unchanged, and clearing afterwards makes
`has_credentials` false and `load` fail with the NVS not-found error. -/
theorem c9_core (nvs : NvsStore) (ss pw : List Char)
    (hco : nvs.canOpen = true) (h31 : ss.length ≤ 31) (h63 : pw.length ≤ 63) :
    wifi_setup_get_credentials (nvsSaveCredentials nvs ss pw) = .ok (ss, pw) ∧
    (wifi_setup_clear_credentials (nvsSaveCredentials nvs ss pw)).1 = EspErr.ok ∧
    wifi_setup_has_credentials
      (wifi_setup_clear_credentials (nvsSaveCredentials nvs ss pw)).2 = false ∧
    wifi_setup_get_credentials
      (wifi_setup_clear_credentials (nvsSaveCredentials nvs ss pw)).2 =
      .error EspErr.errNvsNotFound := by
  have h32 : ¬(ss.length + 1 > 32) := by omega
  have h64 : ¬(pw.length + 1 > 64) := by omega
  refine ⟨?_, ?_, ?_, ?_⟩ <;>
    simp [wifi_setup_get_credentials, wifi_setup_clear_credentials,
          wifi_setup_has_credentials, nvsSaveCredentials, hco, h32, h64]

/-- **C9.** Round trip over the credential store: every credentials pair
the submission handler hands to the background-connect task (i.e. every
pair it persisted) is returned unchanged by a subsequent
`wifi_setup_get_credentials`, and after `wifi_setup_clear_credentials`
the store reports no credentials and `wifi_setup_get_credentials` fails
with the not-found error. -/
theorem c9_save_roundtrip (c : SaveCtx) (now : Nat) (body : List Char)
    (ss pw : List Char)
    (h : (save_post_handler c now body).spawned = some (ss, pw)) :
    wifi_setup_get_credentials (save_post_handler c now body).ctx.nvs =
      Except.ok (ss, pw) ∧
    (wifi_setup_clear_credentials
      (save_post_handler c now body).ctx.nvs).1 = EspErr.ok ∧
    wifi_setup_has_credentials
      (wifi_setup_clear_credentials
        (save_post_handler c now body).ctx.nvs).2 = false ∧
    wifi_setup_get_credentials
      (wifi_setup_clear_credentials
        (save_post_handler c now body).ctx.nvs).2 =
      Except.error EspErr.errNvsNotFound := by
  generalize hE : save_post_handler c now body = r at h ⊢
  obtain ⟨resp, ctxr, sp⟩ := r
  simp only at h
  simp only [save_post_handler] at hE
  split at hE
  · injection hE with h1 h2 h3
    subst h3
    exact Option.noConfusion h
  · split at hE
    · injection hE with h1 h2 h3
      subst h3
      exact Option.noConfusion h
    · split at hE
      · injection hE with h1 h2 h3
        subst h3
        exact Option.noConfusion h
      · split at hE
        · injection hE with h1 h2 h3
          subst h3
          exact Option.noConfusion h
        · split at hE
          · injection hE with h1 h2 h3
            subst h3
            exact Option.noConfusion h
          · injection hE with h1 h2 h3
            subst h3
            exact Option.noConfusion h
          · split at hE
            · split at hE
              · injection hE with h1 h2 h3
                subst h3
                exact Option.noConfusion h
              · split at hE
                · injection hE with h1 h2 h3
                  subst h3
                  exact Option.noConfusion h
                · split at hE
                  · rename_i hnem hopen hmalloc
                    injection hE with h1 h2 h3
                    subst h3
                    injection h with hpair
                    injection hpair with hss hpw
                    subst hss
                    subst hpw
                    subst h2
                    exact c9_core c.nvs _ _ (by simpa using hopen)
                      (clamped_field_length_le _ _)
                      (clamped_field_length_le _ _)
                  · injection hE with h1 h2 h3
                    subst h3
                    exact Option.noConfusion h
            · rw [if_pos (show ([] : List Char).length = 0 from rfl)] at hE
              injection hE with h1 h2 h3
              subst h3
              exact Option.noConfusion h

/-- Witness for C9: the concrete submission of `{Home, pw1}` round-trips
through the store and disappears after clearing. -/
theorem c9_save_roundtrip_witness :
    (save_post_handler preIssueCtx 100000 noCsrfBody).spawned =
      some ("Home".data, "pw1".data) ∧
    wifi_setup_get_credentials
      (save_post_handler preIssueCtx 100000 noCsrfBody).ctx.nvs =
      Except.ok ("Home".data, "pw1".data) ∧
    wifi_setup_has_credentials
      (wifi_setup_clear_credentials
        (save_post_handler preIssueCtx 100000 noCsrfBody).ctx.nvs).2 = false :=
  have h := c9_save_roundtrip preIssueCtx 100000 noCsrfBody
    "Home".data "pw1".data (by decide)
  ⟨by decide, h.1, h.2.2.1⟩
